import Mathlib

/-!
Shallow embedding of the bootstrap layer of mevlog-rs
(`src/misc/shared_init.rs` and `src/misc/utils.rs`).

Rust `u64` chain ids are modelled as `Nat` (no arithmetic is performed on
them, so no overflow can occur and `Nat` is faithful on the whole `u64`
range).  Rust `Result<T, eyre::Error>` is modelled as `Except String T`.
20-byte Ethereum addresses are modelled as their numeric value (`Nat`);
the all-zero address is `0`.
-/

namespace Mevlog

/-- The `EVMChainType` enum of `shared_init.rs`: the closed set of known
chains plus the `Unknown(u64)` fallback carrying the unmatched id. -/
inductive EVMChainType where
  | Mainnet
  | Base
  | BSC
  | Arbitrum
  | Polygon
  | Metis
  | Optimism
  | Avalanche
  | Linea
  | Scroll
  | Fantom
  | Unknown (chain_id : Nat)
deriving DecidableEq, Repr

/-- The `EVMChain` struct: a chain type together with the RPC url it was
constructed with. -/
structure EVMChain where
  chain_type : EVMChainType
  rpc_url : String
deriving DecidableEq, Repr

/-- `EVMChainType::chain_id` from `shared_init.rs`. -/
def EVMChainType.chain_id : EVMChainType → Nat
  | .Mainnet => 1
  | .Base => 8453
  | .BSC => 56
  | .Arbitrum => 42161
  | .Polygon => 137
  | .Metis => 1088
  | .Optimism => 10
  | .Avalanche => 43114
  | .Linea => 59144
  | .Scroll => 534352
  | .Fantom => 250
  | .Unknown chain_id => chain_id

/-- `EVMChainType::name` from `shared_init.rs`. -/
def EVMChainType.name : EVMChainType → String
  | .Mainnet => "mainnet"
  | .Base => "base"
  | .BSC => "bsc"
  | .Arbitrum => "arbitrum"
  | .Polygon => "polygon"
  | .Metis => "metis"
  | .Optimism => "optimism"
  | .Avalanche => "avalanche"
  | .Linea => "linea"
  | .Scroll => "scroll"
  | .Fantom => "fantom"
  | .Unknown _ => "unknown"

/-- `EVMChainType::supported` from `shared_init.rs`: the static list of
known chains. -/
def EVMChainType.supported : List EVMChainType :=
  [ .Mainnet, .Base, .BSC, .Arbitrum, .Polygon, .Metis,
    .Optimism, .Avalanche, .Linea, .Scroll, .Fantom ]

/-- `EVMChain::new` from `shared_init.rs`: looks the id up in the
supported list, falling back to `Unknown(chain_id)` (with a printed
warning, a side effect not modelled), and always returns `Ok`. -/
def EVMChain.new (chain_id : Nat) (rpc_url : String) : Except String EVMChain :=
  let supported_chains := EVMChainType.supported
  let matching_chain :=
    match supported_chains.find? (fun chain => chain.chain_id == chain_id) with
    | some chain => chain
    | none => EVMChainType.Unknown chain_id
  Except.ok { rpc_url := rpc_url, chain_type := matching_chain }

/-- `EVMChain::chain_id`. -/
def EVMChain.chain_id (c : EVMChain) : Nat :=
  c.chain_type.chain_id

/-- `EVMChain::name`. -/
def EVMChain.name (c : EVMChain) : String :=
  c.chain_type.name

/-- `EVMChain::revm_cache_dir_name`: delegates to `name`. -/
def EVMChain.revm_cache_dir_name (c : EVMChain) : String :=
  c.name

/-- `EVMChain::cryo_cache_dir_name` from `shared_init.rs`. -/
def EVMChain.cryo_cache_dir_name (c : EVMChain) : String :=
  match c.chain_type with
  | .Mainnet => "ethereum"
  | .BSC => "bnb"
  | .Scroll => "network_534352"
  | .Fantom => "network_250"
  | .Unknown chain_id => "network_" ++ toString chain_id
  | _ => toString c.chain_id

/-- `EVMChain::price_oracle` from `shared_init.rs`: the Chainlink
gas-token/USD price-feed address per chain, as a numeric 160-bit value. -/
def EVMChain.price_oracle (c : EVMChain) : Nat :=
  match c.chain_type with
  | .Mainnet => 0x5f4eC3Df9cbd43714FE2740f5E3616155c5b8419
  | .Base => 0x71041dddad3595F9CEd3DcCFBe3D1F4b0a16Bb70
  | .BSC => 0x0567f2323251f0aab15c8dfb1967e4e8a7d42aee
  | .Arbitrum => 0x639Fe6ab55C921f74e7fac1ee960C0B6293ba612
  | .Polygon => 0xAB594600376Ec9fD91F8e885dADF0CE036862dE0
  | .Metis => 0xD4a5Bb03B5D66d9bf81507379302Ac2C2DFDFa6D
  | .Optimism => 0x13e3Ee699D1909E989722E753853AE30b17e08c5
  | .Avalanche => 0x0A77230d17318075983913bC2145DB16C7366156
  | .Linea => 0x3c6Cd9Cc7c7a4c2Cf5a82734CD249D7D593354dA
  | .Scroll => 0x6bF14CB0A831078629D993FDeBcB182b21A8774C
  | .Fantom => 0x11DdD3d147E5b83D01cee7070027092397d63658
  | .Unknown _ => 0x0000000000000000000000000000000000000000

/-- `EVMChain::etherscan_url` from `shared_init.rs`. -/
def EVMChain.etherscan_url (c : EVMChain) : String :=
  match c.chain_type with
  | .Mainnet => "https://etherscan.io"
  | .Base => "https://basescan.org"
  | .BSC => "https://bscscan.com"
  | .Arbitrum => "https://arbiscan.io"
  | .Polygon => "https://polygonscan.com"
  | .Metis => "https://andromeda-explorer.metis.io"
  | .Optimism => "https://optimistic.etherscan.io"
  | .Avalanche => "https://snowtrace.io"
  | .Linea => "https://lineascan.build"
  | .Scroll => "https://scrollscan.com"
  | .Fantom => "https://explorer.fantom.network"
  | .Unknown _ => "https://etherscan.io"

/-- `EVMChain::currency_symbol` from `shared_init.rs`. -/
def EVMChain.currency_symbol (c : EVMChain) : String :=
  match c.chain_type with
  | .BSC => "BNB"
  | .Polygon => "POL"
  | .Avalanche => "AVAX"
  | .Metis => "METIS"
  | .Fantom => "FTM"
  | _ => "ETH"

/-- The `TraceMode` enum of `shared_init.rs`. -/
inductive TraceMode where
  | Revm
  | RPC
deriving DecidableEq, Repr

/-- `TraceMode::from_str` from `shared_init.rs`: a case-sensitive exact
match on the literals `"revm"` and `"rpc"`, anything else is an error. -/
def TraceMode.from_str (s : String) : Except String TraceMode :=
  if s = "revm" then Except.ok TraceMode.Revm
  else if s = "rpc" then Except.ok TraceMode.RPC
  else Except.error "Invalid tracing mode"

/-- The `ConnOpts` struct: optional RPC url and optional trace mode. -/
structure ConnOpts where
  rpc_url : Option String
  trace : Option TraceMode

/-- The retry configuration of the `RetryBackoffLayer` built inside
`init_provider`. -/
structure RetryConfig where
  max_retry : Nat
  backoff : Nat
  cups : Nat
deriving DecidableEq, Repr

/-- The provider produced by `init_provider`: a parsed url wrapped in the
retry layer. -/
structure GenericProvider where
  retry : RetryConfig
  parsed_url : String
deriving DecidableEq, Repr

/-- Observable side-effecting steps of `init_deps`, in the order the code
performs them; the trace a run produces records exactly which of them
happened. -/
inductive BootEvent where
  | CheckDbExists
  | CreateConfigDir
  | DownloadDbFile
  | OpenSqlite
  | SpawnEnsWorker
  | SpawnSymbolsWorker
  | BuildProvider
  | GetChainId
deriving DecidableEq, Repr

/-- The environment of `init_deps`: the outcome each external operation
(filesystem, database, network) would have if performed.  Handles
produced by infallible operations (the two worker senders) are plain
numeric identifiers. -/
structure BootEnv where
  db_file_exists : Bool
  download_db_file : Except String Unit
  sqlite_conn : Except String Nat
  ens_lookup_worker : Nat
  symbols_lookup_worker : Nat
  parse_url : String → Except String String
  get_chain_id : Except String Nat

/-- The `SharedDeps` struct assembled by `init_deps`. -/
structure SharedDeps where
  sqlite : Nat
  ens_lookup_worker : Nat
  symbols_lookup_worker : Nat
  provider : GenericProvider
  chain : EVMChain

/-- `init_provider` from `shared_init.rs`: fixed retry constants
(`max_retry = 10`, `backoff = 1000`, `cups = 100`), then parses the url
(parse failure propagates as an error).  The `None` branch is
`unreachable!()` in the source, modelled as an error. -/
def init_provider (env : BootEnv) (conn_opts : ConnOpts) :
    Except String GenericProvider :=
  let max_retry := 10
  let backoff := 1000
  let cups := 100
  let retry_layer : RetryConfig :=
    { max_retry := max_retry, backoff := backoff, cups := cups }
  match conn_opts.rpc_url with
  | some rpc_url =>
    match env.parse_url rpc_url with
    | Except.ok u => Except.ok { retry := retry_layer, parsed_url := u }
    | Except.error e => Except.error e
  | none => Except.error "unreachable"

/-- The steps of `init_deps` after the cache-database bootstrap: open the
sqlite pool, spawn the two workers, build the provider, query the chain
id, resolve the chain.  `evs` is the trace accumulated so far. -/
def init_deps_cont (env : BootEnv) (conn_opts : ConnOpts) (rpc_url : String)
    (evs : List BootEvent) : Except String SharedDeps × List BootEvent :=
  let evs := evs ++ [BootEvent.OpenSqlite]
  match env.sqlite_conn with
  | Except.error e => (Except.error e, evs)
  | Except.ok sqlite_pool =>
    let evs := evs ++ [BootEvent.SpawnEnsWorker, BootEvent.SpawnSymbolsWorker]
    let ens_worker := env.ens_lookup_worker
    let symbols_worker := env.symbols_lookup_worker
    let evs := evs ++ [BootEvent.BuildProvider]
    match init_provider env conn_opts with
    | Except.error e => (Except.error e, evs)
    | Except.ok provider =>
      let evs := evs ++ [BootEvent.GetChainId]
      match env.get_chain_id with
      | Except.error e => (Except.error e, evs)
      | Except.ok chain_id =>
        match EVMChain.new chain_id rpc_url with
        | Except.error e => (Except.error e, evs)
        | Except.ok chain =>
          (Except.ok { sqlite := sqlite_pool
                       ens_lookup_worker := ens_worker
                       symbols_lookup_worker := symbols_worker
                       provider := provider
                       chain := chain }, evs)

/-- `init_deps` from `shared_init.rs`: validates that the RPC url is
present, bootstraps the cache database file (create directory and
download when it does not exist), then continues with the remaining
steps.  Returns the result together with the trace of external steps
performed. -/
def init_deps (env : BootEnv) (conn_opts : ConnOpts) :
    Except String SharedDeps × List BootEvent :=
  match conn_opts.rpc_url with
  | none =>
    (Except.error "Missing provider URL, use --rpc-url or set ETH_RPC_URL env var",
     [])
  | some rpc_url =>
    let evs := [BootEvent.CheckDbExists]
    if env.db_file_exists then
      init_deps_cont env conn_opts rpc_url evs
    else
      let evs := evs ++ [BootEvent.CreateConfigDir, BootEvent.DownloadDbFile]
      match env.download_db_file with
      | Except.error e => (Except.error e, evs)
      | Except.ok _ => init_deps_cont env conn_opts rpc_url evs

/-- Modelled from the spec: the response of a simulated RPC endpoint at a
given attempt — success, a transient (retryable) failure, or a
non-transient failure.  The retry behaviour itself lives in the external
`RetryBackoffLayer` of the alloy library, not in this repository; only
its configuration is repository code. -/
inductive RpcResp (α : Type) where
  | success (a : α)
  | transient
  | fatal
deriving DecidableEq, Repr

/-- Modelled from the spec: the retry loop of the `RetryBackoffLayer`.
Transient failures are retried up to the remaining retry budget, after
which a terminal transport error is returned; non-transient failures are
not retried.  Returns the result together with the index (1-based) of
the last attempt performed. -/
def retry_go {α : Type} (endpoint : Nat → RpcResp α) :
    Nat → Nat → Except String α × Nat
  | retries_left, attempt =>
    match endpoint attempt with
    | RpcResp.success a => (Except.ok a, attempt)
    | RpcResp.fatal => (Except.error "non-transient failure", attempt)
    | RpcResp.transient =>
      match retries_left with
      | 0 => (Except.error "terminal transport error", attempt)
      | r + 1 => retry_go endpoint r (attempt + 1)

/-- Modelled from the spec: run a request through the retry policy of a
given configuration, starting at attempt 1 with `max_retry` retries in
budget. -/
def retry_run {α : Type} (cfg : RetryConfig) (endpoint : Nat → RpcResp α) :
    Except String α × Nat :=
  retry_go endpoint cfg.max_retry 1

/-- A simulated endpoint that fails transiently on the first `n` attempts
and succeeds from attempt `n + 1` on. -/
def fail_n_times (n : Nat) : Nat → RpcResp Unit :=
  fun attempt => if attempt ≤ n then RpcResp.transient else RpcResp.success ()

/-- The events of the cache-database bootstrap phase of `init_deps`: only
the existence check when the file is present, otherwise also the
directory creation and the download. -/
def boot_db_events (env : BootEnv) : List BootEvent :=
  if env.db_file_exists then [BootEvent.CheckDbExists]
  else [BootEvent.CheckDbExists, BootEvent.CreateConfigDir, BootEvent.DownloadDbFile]

/-- Helper: `EVMChain::new` always returns `Ok`, the resulting chain
preserves the requested chain id, and its chain type is either one of
the statically supported variants or `Unknown(chain_id)`. -/
theorem EVMChain.new_total (chain_id : Nat) (rpc_url : String) :
    ∃ c : EVMChain, EVMChain.new chain_id rpc_url = Except.ok c ∧
      c.chain_id = chain_id ∧
      (c.chain_type ∈ EVMChainType.supported ∨
        c.chain_type = EVMChainType.Unknown chain_id) := by
  cases h : EVMChainType.supported.find? (fun chain => chain.chain_id == chain_id) with
  | none =>
    refine ⟨⟨EVMChainType.Unknown chain_id, rpc_url⟩, ?_, rfl, Or.inr rfl⟩
    simp [EVMChain.new, h]
  | some chain =>
    refine ⟨⟨chain, rpc_url⟩, ?_, ?_, Or.inl (List.mem_of_find?_eq_some h)⟩
    · simp [EVMChain.new, h]
    · have hp := List.find?_some h
      simpa [EVMChain.chain_id, beq_iff_eq] using hp

/-- C1: For every chain id and every rpc url, `EVMChain::new` returns
`Ok`, the resulting chain's `chain_id()` equals the input chain id, and
the chain type is either a statically supported variant or
`Unknown(chain_id)`. -/
theorem chain_lookup_total_and_id_preserving (chain_id : Nat) (rpc_url : String) :
    ∃ c : EVMChain, EVMChain.new chain_id rpc_url = Except.ok c ∧
      c.chain_id = chain_id ∧
      (c.chain_type ∈ EVMChainType.supported ∨
        c.chain_type = EVMChainType.Unknown chain_id) :=
  EVMChain.new_total chain_id rpc_url

/-- C2: `cryo_cache_dir_name` follows the exact table: Mainnet (id 1) is
"ethereum", BSC (id 56) is "bnb", Scroll (id 534352) is
"network_534352", Fantom (id 250) is "network_250", `Unknown(id)` is
"network_" followed by the decimal id, and every other supported chain
is its decimal chain id rendered as a string. -/
theorem cryo_cache_dir_name_table (url : String) (id : Nat) :
    (EVMChain.mk EVMChainType.Mainnet url).cryo_cache_dir_name = "ethereum" ∧
    (EVMChain.mk EVMChainType.BSC url).cryo_cache_dir_name = "bnb" ∧
    (EVMChain.mk EVMChainType.Scroll url).cryo_cache_dir_name = "network_534352" ∧
    (EVMChain.mk EVMChainType.Fantom url).cryo_cache_dir_name = "network_250" ∧
    (EVMChain.mk (EVMChainType.Unknown id) url).cryo_cache_dir_name
      = "network_" ++ toString id ∧
    (EVMChain.mk EVMChainType.Base url).cryo_cache_dir_name = "8453" ∧
    (EVMChain.mk EVMChainType.Arbitrum url).cryo_cache_dir_name = "42161" ∧
    (EVMChain.mk EVMChainType.Polygon url).cryo_cache_dir_name = "137" ∧
    (EVMChain.mk EVMChainType.Metis url).cryo_cache_dir_name = "1088" ∧
    (EVMChain.mk EVMChainType.Optimism url).cryo_cache_dir_name = "10" ∧
    (EVMChain.mk EVMChainType.Avalanche url).cryo_cache_dir_name = "43114" ∧
    (EVMChain.mk EVMChainType.Linea url).cryo_cache_dir_name = "59144" := by
  refine ⟨rfl, rfl, rfl, rfl, rfl, ?_, ?_, ?_, ?_, ?_, ?_, ?_⟩ <;>
    (simp only [EVMChain.cryo_cache_dir_name, EVMChain.chain_id,
       EVMChainType.chain_id]; decide)

/-- C3: Any chain id outside the supported set resolves to
`Unknown(id)`, whose metadata degrades to defaults: the all-zero price
oracle address, currency symbol "ETH" and the mainnet explorer url. -/
theorem unknown_chain_default_metadata (id : Nat) (url : String)
    (h : id ∉ EVMChainType.supported.map EVMChainType.chain_id) :
    EVMChain.new id url =
      Except.ok (EVMChain.mk (EVMChainType.Unknown id) url) ∧
    (EVMChain.mk (EVMChainType.Unknown id) url).price_oracle = 0 ∧
    (EVMChain.mk (EVMChainType.Unknown id) url).currency_symbol = "ETH" ∧
    (EVMChain.mk (EVMChainType.Unknown id) url).etherscan_url
      = "https://etherscan.io" := by
  have hfind :
      EVMChainType.supported.find? (fun chain => chain.chain_id == id) = none := by
    rw [List.find?_eq_none]
    intro x hx
    simp only [beq_iff_eq]
    intro hc
    exact h (List.mem_map.mpr ⟨x, hx, hc⟩)
  exact ⟨by simp [EVMChain.new, hfind], rfl, rfl, rfl⟩

/-- Witness for C3 at the concrete unsupported chain id 999999. -/
theorem unknown_chain_default_metadata_witness :
    EVMChain.new 999999 "http://localhost:8545" =
      Except.ok (EVMChain.mk (EVMChainType.Unknown 999999) "http://localhost:8545") :=
  (unknown_chain_default_metadata 999999 "http://localhost:8545" (by decide)).1

/-- C4: Every supported chain id resolves to its known variant, with the
documented fixed `name()` and the fixed per-chain `currency_symbol()`:
"BNB" for BSC, "POL" for Polygon, "AVAX" for Avalanche, "METIS" for
Metis, "FTM" for Fantom, and "ETH" for every other chain. -/
theorem supported_chain_names_and_symbols (url : String) :
    (EVMChain.new 1 url = Except.ok (EVMChain.mk EVMChainType.Mainnet url) ∧
      (EVMChain.mk EVMChainType.Mainnet url).name = "mainnet" ∧
      (EVMChain.mk EVMChainType.Mainnet url).currency_symbol = "ETH") ∧
    (EVMChain.new 8453 url = Except.ok (EVMChain.mk EVMChainType.Base url) ∧
      (EVMChain.mk EVMChainType.Base url).name = "base" ∧
      (EVMChain.mk EVMChainType.Base url).currency_symbol = "ETH") ∧
    (EVMChain.new 56 url = Except.ok (EVMChain.mk EVMChainType.BSC url) ∧
      (EVMChain.mk EVMChainType.BSC url).name = "bsc" ∧
      (EVMChain.mk EVMChainType.BSC url).currency_symbol = "BNB") ∧
    (EVMChain.new 42161 url = Except.ok (EVMChain.mk EVMChainType.Arbitrum url) ∧
      (EVMChain.mk EVMChainType.Arbitrum url).name = "arbitrum" ∧
      (EVMChain.mk EVMChainType.Arbitrum url).currency_symbol = "ETH") ∧
    (EVMChain.new 137 url = Except.ok (EVMChain.mk EVMChainType.Polygon url) ∧
      (EVMChain.mk EVMChainType.Polygon url).name = "polygon" ∧
      (EVMChain.mk EVMChainType.Polygon url).currency_symbol = "POL") ∧
    (EVMChain.new 1088 url = Except.ok (EVMChain.mk EVMChainType.Metis url) ∧
      (EVMChain.mk EVMChainType.Metis url).name = "metis" ∧
      (EVMChain.mk EVMChainType.Metis url).currency_symbol = "METIS") ∧
    (EVMChain.new 10 url = Except.ok (EVMChain.mk EVMChainType.Optimism url) ∧
      (EVMChain.mk EVMChainType.Optimism url).name = "optimism" ∧
      (EVMChain.mk EVMChainType.Optimism url).currency_symbol = "ETH") ∧
    (EVMChain.new 43114 url = Except.ok (EVMChain.mk EVMChainType.Avalanche url) ∧
      (EVMChain.mk EVMChainType.Avalanche url).name = "avalanche" ∧
      (EVMChain.mk EVMChainType.Avalanche url).currency_symbol = "AVAX") ∧
    (EVMChain.new 59144 url = Except.ok (EVMChain.mk EVMChainType.Linea url) ∧
      (EVMChain.mk EVMChainType.Linea url).name = "linea" ∧
      (EVMChain.mk EVMChainType.Linea url).currency_symbol = "ETH") ∧
    (EVMChain.new 534352 url = Except.ok (EVMChain.mk EVMChainType.Scroll url) ∧
      (EVMChain.mk EVMChainType.Scroll url).name = "scroll" ∧
      (EVMChain.mk EVMChainType.Scroll url).currency_symbol = "ETH") ∧
    (EVMChain.new 250 url = Except.ok (EVMChain.mk EVMChainType.Fantom url) ∧
      (EVMChain.mk EVMChainType.Fantom url).name = "fantom" ∧
      (EVMChain.mk EVMChainType.Fantom url).currency_symbol = "FTM") :=
  ⟨⟨rfl, rfl, rfl⟩, ⟨rfl, rfl, rfl⟩, ⟨rfl, rfl, rfl⟩, ⟨rfl, rfl, rfl⟩,
   ⟨rfl, rfl, rfl⟩, ⟨rfl, rfl, rfl⟩, ⟨rfl, rfl, rfl⟩, ⟨rfl, rfl, rfl⟩,
   ⟨rfl, rfl, rfl⟩, ⟨rfl, rfl, rfl⟩, ⟨rfl, rfl, rfl⟩⟩

/-- C6: With no RPC url, `init_deps` returns the configuration error
immediately and its trace of external steps is empty: no cache check, no
directory creation, no download, no worker spawn, no provider
construction and no chain-id query happen. -/
theorem missing_rpc_url_fails_with_no_side_effects (env : BootEnv)
    (trace : Option TraceMode) :
    init_deps env { rpc_url := none, trace := trace } =
      (Except.error "Missing provider URL, use --rpc-url or set ETH_RPC_URL env var",
       ([] : List BootEvent)) :=
  rfl

/-- C7: `TraceMode::from_str` maps exactly "revm" to `Revm` and exactly
"rpc" to `RPC`, case-sensitively, and every other string to a parse
error. -/
theorem trace_mode_from_str_exact (s : String) :
    (TraceMode.from_str s = Except.ok TraceMode.Revm ↔ s = "revm") ∧
    (TraceMode.from_str s = Except.ok TraceMode.RPC ↔ s = "rpc") ∧
    (s ≠ "revm" → s ≠ "rpc" →
      TraceMode.from_str s = Except.error "Invalid tracing mode") := by
  unfold TraceMode.from_str
  by_cases h1 : s = "revm"
  · subst h1
    simp
  · by_cases h2 : s = "rpc"
    · subst h2
      simp
    · simp [h1, h2]

/-- Witness for C7 at the concrete non-matching strings "REVM" and
"Rpc". -/
theorem trace_mode_from_str_exact_witness :
    TraceMode.from_str "REVM" = Except.error "Invalid tracing mode" ∧
    TraceMode.from_str "Rpc" = Except.error "Invalid tracing mode" :=
  ⟨(trace_mode_from_str_exact "REVM").2.2 (by decide) (by decide),
   (trace_mode_from_str_exact "Rpc").2.2 (by decide) (by decide)⟩

/-- C8: `init_provider` always installs the fixed retry configuration
`max_retry = 10`, `backoff = 1000`, `cups = 100` around the parsed url;
under that configuration, an endpoint failing transiently exactly 9
times succeeds on the 10th attempt, and one failing 11 times ends in a
terminal transport error on the 11th attempt, with no 12th attempt
(the simulated endpoint would have succeeded on attempt 12). -/
theorem provider_retry_config_and_budget (env : BootEnv) (url : String)
    (t : Option TraceMode) :
    init_provider env { rpc_url := some url, trace := t } =
      (env.parse_url url).map
        (fun u =>
          { retry := { max_retry := 10, backoff := 1000, cups := 100 },
            parsed_url := u }) ∧
    retry_run { max_retry := 10, backoff := 1000, cups := 100 }
        (fail_n_times 9) = (Except.ok (), 10) ∧
    retry_run { max_retry := 10, backoff := 1000, cups := 100 }
        (fail_n_times 11) = (Except.error "terminal transport error", 11) := by
  refine ⟨?_, rfl, rfl⟩
  cases h : env.parse_url url <;> simp [init_provider, h, Except.map]

/-- C10: `revm_cache_dir_name` coincides with `name` on every chain; in
particular every `Unknown(id)` chain, regardless of id, gets the same
revm cache directory name "unknown", so distinct unknown chains collide
in that namespace. -/
theorem revm_cache_dir_name_is_name :
    (∀ c : EVMChain, c.revm_cache_dir_name = c.name) ∧
    (∀ (id : Nat) (url : String),
      (EVMChain.mk (EVMChainType.Unknown id) url).revm_cache_dir_name
        = "unknown") :=
  ⟨fun _ => rfl, fun _ _ => rfl⟩

/-- Helper: case analysis of `init_deps_cont`.  Exactly one of: the
sqlite pool fails to open; the url fails to parse; the chain-id query
fails; or everything succeeds and the fully populated bundle is
returned.  In each failure case the trace stops at the failing step. -/
theorem init_deps_cont_cases (env : BootEnv) (conn_opts : ConnOpts)
    (url : String) (evs : List BootEvent)
    (hurl : conn_opts.rpc_url = some url) :
    (∃ e, env.sqlite_conn = Except.error e ∧
      init_deps_cont env conn_opts url evs =
        (Except.error e, evs ++ [BootEvent.OpenSqlite])) ∨
    (∃ pool e, env.sqlite_conn = Except.ok pool ∧
      env.parse_url url = Except.error e ∧
      init_deps_cont env conn_opts url evs =
        (Except.error e,
         evs ++ [BootEvent.OpenSqlite, BootEvent.SpawnEnsWorker,
                 BootEvent.SpawnSymbolsWorker, BootEvent.BuildProvider])) ∨
    (∃ pool u e, env.sqlite_conn = Except.ok pool ∧
      env.parse_url url = Except.ok u ∧
      env.get_chain_id = Except.error e ∧
      init_deps_cont env conn_opts url evs =
        (Except.error e,
         evs ++ [BootEvent.OpenSqlite, BootEvent.SpawnEnsWorker,
                 BootEvent.SpawnSymbolsWorker, BootEvent.BuildProvider,
                 BootEvent.GetChainId])) ∨
    (∃ pool u cid chain, env.sqlite_conn = Except.ok pool ∧
      env.parse_url url = Except.ok u ∧
      env.get_chain_id = Except.ok cid ∧
      EVMChain.new cid url = Except.ok chain ∧
      chain.chain_id = cid ∧
      init_deps_cont env conn_opts url evs =
        (Except.ok
          { sqlite := pool
            ens_lookup_worker := env.ens_lookup_worker
            symbols_lookup_worker := env.symbols_lookup_worker
            provider :=
              { retry := { max_retry := 10, backoff := 1000, cups := 100 },
                parsed_url := u }
            chain := chain },
         evs ++ [BootEvent.OpenSqlite, BootEvent.SpawnEnsWorker,
                 BootEvent.SpawnSymbolsWorker, BootEvent.BuildProvider,
                 BootEvent.GetChainId])) := by
  cases hsq : env.sqlite_conn with
  | error e =>
    exact Or.inl ⟨e, rfl, by simp [init_deps_cont, hsq]⟩
  | ok pool =>
    cases hp : env.parse_url url with
    | error e =>
      refine Or.inr (Or.inl ⟨pool, e, rfl, rfl, ?_⟩)
      simp [init_deps_cont, init_provider, hurl, hsq, hp]
    | ok u =>
      cases hc : env.get_chain_id with
      | error e =>
        refine Or.inr (Or.inr (Or.inl ⟨pool, u, e, rfl, rfl, rfl, ?_⟩))
        simp [init_deps_cont, init_provider, hurl, hsq, hp, hc]
      | ok cid =>
        obtain ⟨chain, hnew, hcid, -⟩ := EVMChain.new_total cid url
        refine Or.inr (Or.inr (Or.inr
          ⟨pool, u, cid, chain, rfl, rfl, rfl, hnew, hcid, ?_⟩))
        simp [init_deps_cont, init_provider, hurl, hsq, hp, hc, hnew]

/-- C5: `init_deps` is all-or-nothing.  Every run falls into exactly one
of six cases: the missing-url error (empty trace); a download failure
(trace stops before the sqlite open); a sqlite failure (trace stops
before the worker spawns); a url-parse failure (trace stops before the
chain-id query); a chain-id failure; or full success, in which case the
returned bundle's every field is the populated result of the
corresponding successful step.  In each failure case the trace shows
that all remaining steps were skipped, and no `Ok` with a partial bundle
is ever produced. -/
theorem init_deps_all_or_nothing (env : BootEnv) (conn_opts : ConnOpts) :
    (conn_opts.rpc_url = none ∧
      init_deps env conn_opts =
        (Except.error "Missing provider URL, use --rpc-url or set ETH_RPC_URL env var",
         [])) ∨
    (∃ url e, conn_opts.rpc_url = some url ∧
      env.db_file_exists = false ∧
      env.download_db_file = Except.error e ∧
      init_deps env conn_opts =
        (Except.error e,
         [BootEvent.CheckDbExists, BootEvent.CreateConfigDir,
          BootEvent.DownloadDbFile])) ∨
    (∃ url e, conn_opts.rpc_url = some url ∧
      (env.db_file_exists = true ∨ env.download_db_file = Except.ok ()) ∧
      env.sqlite_conn = Except.error e ∧
      init_deps env conn_opts =
        (Except.error e, boot_db_events env ++ [BootEvent.OpenSqlite])) ∨
    (∃ url pool e, conn_opts.rpc_url = some url ∧
      (env.db_file_exists = true ∨ env.download_db_file = Except.ok ()) ∧
      env.sqlite_conn = Except.ok pool ∧
      env.parse_url url = Except.error e ∧
      init_deps env conn_opts =
        (Except.error e,
         boot_db_events env ++
           [BootEvent.OpenSqlite, BootEvent.SpawnEnsWorker,
            BootEvent.SpawnSymbolsWorker, BootEvent.BuildProvider])) ∨
    (∃ url pool u e, conn_opts.rpc_url = some url ∧
      (env.db_file_exists = true ∨ env.download_db_file = Except.ok ()) ∧
      env.sqlite_conn = Except.ok pool ∧
      env.parse_url url = Except.ok u ∧
      env.get_chain_id = Except.error e ∧
      init_deps env conn_opts =
        (Except.error e,
         boot_db_events env ++
           [BootEvent.OpenSqlite, BootEvent.SpawnEnsWorker,
            BootEvent.SpawnSymbolsWorker, BootEvent.BuildProvider,
            BootEvent.GetChainId])) ∨
    (∃ url pool u cid chain, conn_opts.rpc_url = some url ∧
      (env.db_file_exists = true ∨ env.download_db_file = Except.ok ()) ∧
      env.sqlite_conn = Except.ok pool ∧
      env.parse_url url = Except.ok u ∧
      env.get_chain_id = Except.ok cid ∧
      EVMChain.new cid url = Except.ok chain ∧
      chain.chain_id = cid ∧
      init_deps env conn_opts =
        (Except.ok
          { sqlite := pool
            ens_lookup_worker := env.ens_lookup_worker
            symbols_lookup_worker := env.symbols_lookup_worker
            provider :=
              { retry := { max_retry := 10, backoff := 1000, cups := 100 },
                parsed_url := u }
            chain := chain },
         boot_db_events env ++
           [BootEvent.OpenSqlite, BootEvent.SpawnEnsWorker,
            BootEvent.SpawnSymbolsWorker, BootEvent.BuildProvider,
            BootEvent.GetChainId])) := by
  cases hurl : conn_opts.rpc_url with
  | none =>
    exact Or.inl ⟨rfl, by simp [init_deps, hurl]⟩
  | some url =>
    refine Or.inr ?_
    cases hdb : env.db_file_exists with
    | false =>
      cases hdl : env.download_db_file with
      | error e =>
        exact Or.inl ⟨url, e, rfl, rfl, rfl, by simp [init_deps, hurl, hdb, hdl]⟩
      | ok uu =>
        cases uu
        refine Or.inr ?_
        have hinit : init_deps env conn_opts =
            init_deps_cont env conn_opts url
              [BootEvent.CheckDbExists, BootEvent.CreateConfigDir,
               BootEvent.DownloadDbFile] := by
          simp [init_deps, hurl, hdb, hdl]
        have hevs : boot_db_events env =
            [BootEvent.CheckDbExists, BootEvent.CreateConfigDir,
             BootEvent.DownloadDbFile] := by
          simp [boot_db_events, hdb]
        rcases init_deps_cont_cases env conn_opts url
            [BootEvent.CheckDbExists, BootEvent.CreateConfigDir,
             BootEvent.DownloadDbFile] hurl with
          ⟨e, h1, h2⟩ | ⟨pool, e, h1, h2, h3⟩ |
          ⟨pool, u, e, h1, h2, h3, h4⟩ | ⟨pool, u, cid, chain, h1, h2, h3, h4, h5, h6⟩
        · exact Or.inl ⟨url, e, rfl, (Or.inr rfl), h1, by rw [hinit, h2, hevs]⟩
        · exact Or.inr (Or.inl
            ⟨url, pool, e, rfl, (Or.inr rfl), h1, h2, by rw [hinit, h3, hevs]⟩)
        · exact Or.inr (Or.inr (Or.inl
            ⟨url, pool, u, e, rfl, (Or.inr rfl), h1, h2, h3, by rw [hinit, h4, hevs]⟩))
        · exact Or.inr (Or.inr (Or.inr
            ⟨url, pool, u, cid, chain, rfl, (Or.inr rfl), h1, h2, h3, h4, h5,
             by rw [hinit, h6, hevs]⟩))
    | true =>
      refine Or.inr ?_
      have hinit : init_deps env conn_opts =
          init_deps_cont env conn_opts url [BootEvent.CheckDbExists] := by
        simp [init_deps, hurl, hdb]
      have hevs : boot_db_events env = [BootEvent.CheckDbExists] := by
        simp [boot_db_events, hdb]
      rcases init_deps_cont_cases env conn_opts url
          [BootEvent.CheckDbExists] hurl with
        ⟨e, h1, h2⟩ | ⟨pool, e, h1, h2, h3⟩ |
        ⟨pool, u, e, h1, h2, h3, h4⟩ | ⟨pool, u, cid, chain, h1, h2, h3, h4, h5, h6⟩
      · exact Or.inl ⟨url, e, rfl, (Or.inl rfl), h1, by rw [hinit, h2, hevs]⟩
      · exact Or.inr (Or.inl
          ⟨url, pool, e, rfl, (Or.inl rfl), h1, h2, by rw [hinit, h3, hevs]⟩)
      · exact Or.inr (Or.inr (Or.inl
          ⟨url, pool, u, e, rfl, (Or.inl rfl), h1, h2, h3, by rw [hinit, h4, hevs]⟩))
      · exact Or.inr (Or.inr (Or.inr
          ⟨url, pool, u, cid, chain, rfl, (Or.inl rfl), h1, h2, h3, h4, h5,
           by rw [hinit, h6, hevs]⟩))

end Mevlog
